import Mathlib

/-!
Verification of `src/website/app.py` (a Flask application serving a static
marketing website with three routes) against its natural-language
specification.

The Python module is shallowly embedded: the module-level content constants
become Lean constants, each Flask route handler becomes a pure Lean function
of an explicit server state, and the Flask framework primitives used by the
code (`redirect`, `send_from_directory`, `render_template`, route dispatch,
default error responses) are modelled as Lean functions following their
documented semantics.  The Jinja template `templates/index.html` is not part
of `src/`, so its rendering is modelled from the spec (see `indexBody`).
-/

/-- A navigation link: the dictionaries `{"label": ..., "href": ...}` of
`NAV_LINKS` in `app.py` lines 5-11. -/
structure NavLink where
  label : String
  href : String
deriving DecidableEq, Repr

/-- A call-to-action `{"label": ..., "href": ...}` as embedded in `HERO`
(`primary`, `secondary`) and `CALLOUT` (`cta`). -/
structure CTA where
  label : String
  href : String
deriving DecidableEq, Repr

/-- The `HERO` dictionary of `app.py` lines 13-22. -/
structure Hero where
  badge : String
  title : String
  subtitle : String
  primary : CTA
  secondary : CTA
deriving DecidableEq, Repr

/-- A `STATS` entry `{"value": ..., "label": ...}` (`app.py` lines 31-35). -/
structure Stat where
  value : String
  label : String
deriving DecidableEq, Repr

/-- A `{"title": ..., "body": ...}` pair, used for `OVERVIEW.items`,
`FEATURES` and `ARCHITECTURE` entries. -/
structure TitleBody where
  title : String
  body : String
deriving DecidableEq, Repr

/-- A `WORKFLOW` entry `{"step": ..., "title": ..., "body": ...}`
(`app.py` lines 92-113). -/
structure WorkflowStep where
  step : String
  title : String
  body : String
deriving DecidableEq, Repr

/-- The `OVERVIEW` dictionary of `app.py` lines 37-63. -/
structure Overview where
  title : String
  intro : String
  items : List TitleBody
deriving DecidableEq, Repr

/-- The `CALLOUT` dictionary of `app.py` lines 134-141. -/
structure Callout where
  title : String
  body : String
  cta : CTA
deriving DecidableEq, Repr

/-- `NAV_LINKS` (`app.py` lines 5-11). -/
def NAV_LINKS : List NavLink :=
  [ { label := "Overview", href := "#overview" },
    { label := "Features", href := "#features" },
    { label := "Workflow", href := "#workflow" },
    { label := "Architecture", href := "#architecture" },
    { label := "Docs", href := "/docs/" } ]

/-- `HERO` (`app.py` lines 13-22). -/
def HERO : Hero :=
  { badge := "docs.mcp-runtime.org",
    title := "Launch MCP servers with a platform, not a patchwork.",
    subtitle :=
      "MCP Runtime Platform gives teams a registry, Kubernetes operator, and " ++
      "CLI that standardizes how MCP servers are defined, built, and routed.",
    primary := { label := "Open Documentation", href := "/docs/" },
    secondary := { label := "View features", href := "#features" } }

/-- `AT_A_GLANCE` (`app.py` lines 24-29). -/
def AT_A_GLANCE : List String :=
  [ "Metadata-driven server definitions in YAML.",
    "Operator creates Deployment, Service, and Ingress automatically.",
    "Internal registry keeps images and metadata in sync.",
    "Unified routes for every server at /\x7bserver-name\x7d/mcp." ]

/-- `STATS` (`app.py` lines 31-35). -/
def STATS : List Stat :=
  [ { value := "1 CLI", label := "Unified workflow for platform and servers." },
    { value := "3 core services", label := "Registry, operator, and cluster helpers." },
    { value := "0 bespoke YAML", label := "No hand-written manifests for each server." } ]

/-- `OVERVIEW` (`app.py` lines 37-63). -/
def OVERVIEW : Overview :=
  { title := "Why MCP Runtime Platform",
    intro :=
      "Move from experiments to production with a clear, repeatable approach " ++
      "to deploying and cataloging MCP servers.",
    items :=
      [ { title := "Built for scale",
          body :=
            "Manage a fleet of MCP servers without third-party gateways or " ++
            "bespoke routing layers." },
        { title := "Designed for teams",
          body :=
            "A centralized registry and consistent deployment flow make it " ++
            "easy to discover and reuse servers." },
        { title := "Opinionated safety",
          body := "Promote best practices with standardized metadata and CI-ready pipelines." } ] }

/-- `FEATURES` (`app.py` lines 65-90). -/
def FEATURES : List TitleBody :=
  [ { title := "Complete platform",
      body := "Deploy registry, operator, and helpers in one setup flow built for MCP fleets." },
    { title := "CLI tooling",
      body := "Manage platform setup, registry operations, and server pipelines from one CLI." },
    { title := "Kubernetes operator",
      body := "Creates Deployment, Service, and Ingress resources from MCP metadata." },
    { title := "Metadata-driven",
      body := "Define MCP servers in YAML without hand-writing Kubernetes manifests." },
    { title := "Unified routing",
      body := "Every MCP server is reachable at a consistent /\x7bserver-name\x7d/mcp path." },
    { title := "Automated builds",
      body := "Build Docker images from metadata and keep registry entries up to date." } ]

/-- `WORKFLOW` (`app.py` lines 92-113). -/
def WORKFLOW : List WorkflowStep :=
  [ { step := "01", title := "Define",
      body := "Capture server metadata in YAML, including name, route, and container port." },
    { step := "02", title := "Build",
      body := "Build Docker images locally or in CI/CD and push them to the registry." },
    { step := "03", title := "Deploy",
      body := "Generate manifests and deploy MCP servers through the operator." },
    { step := "04", title := "Access",
      body := "Reach every MCP server through consistent URLs managed by ingress." } ]

/-- `ARCHITECTURE` (`app.py` lines 115-132). -/
def ARCHITECTURE : List TitleBody :=
  [ { title := "Developer workstation",
      body := "Define servers, build images, and push updates from local development." },
    { title := "CI/CD pipeline",
      body := "Build images, publish to the registry, and generate CRDs automatically." },
    { title := "Kubernetes cluster",
      body := "The operator watches MCPServer resources and provisions services." },
    { title := "Internal registry",
      body := "Stores MCP server images and keeps metadata in sync for discovery." } ]

/-- `CALLOUT` (`app.py` lines 134-141). -/
def CALLOUT : Callout :=
  { title := "Active development notice",
    body :=
      "MCP Runtime Platform is under active development. APIs, commands, and " ++
      "behavior may change, and production usage is not recommended yet.",
    cta := { label := "Read the documentation", href := "/docs/" } }

/-- The Jinja template `templates/index.html` referenced by
`render_template("index.html", ...)`.  The template file itself is not under
`src/`; we model only what matters for the spec: whether the template is
syntactically well-formed.  Jinja raises a `TemplateSyntaxError` when a
malformed template is compiled, which happens lazily on first render. -/
structure Template where
  malformed : Bool
deriving DecidableEq, Repr

/-- An HTTP request as seen by the WSGI layer: Flask routes on the path; the
headers and query string are carried along so that non-interference claims
about them can be stated. -/
structure Request where
  path : String
  headers : List (String × String)
  query : String
deriving DecidableEq, Repr

/-- An HTTP response: status code, headers, body.  The body is the byte
sequence of the response, modelled as a `String`. -/
structure Response where
  status : Nat
  headers : List (String × String)
  body : String
deriving DecidableEq, Repr

/-- The filesystem visible to `send_from_directory`: a map from
(directory, filename) to the file's contents, `none` when absent. -/
def FS : Type := String → String → Option String

/-- The process-wide state of the running Flask application: the module-level
content constants (the Python globals that handlers close over), the template,
and the filesystem.  Handlers receive and return this state explicitly; the
source handlers never assign to any global, which the theorems below record. -/
structure ServerState where
  nav_links : List NavLink
  hero : Hero
  at_a_glance : List String
  stats : List Stat
  overview : Overview
  features : List TitleBody
  workflow : List WorkflowStep
  architecture : List TitleBody
  callout : Callout
  template : Template
  fs : FS

/-- Modelled from the spec: rendering of one navigation link by the template
(`templates/index.html` is absent from `src/`; spec section 3 gives NavLink =
label/href and section 8.5 requires links rendered in declared order). -/
def renderNavLink (l : NavLink) : String :=
  "<a href=\"" ++ l.href ++ "\">" ++ l.label ++ "</a>"

/-- Modelled from the spec: rendering of one call-to-action (section 3,
CallToAction = label/href). -/
def renderCTA (c : CTA) : String :=
  "<a class=\"cta\" href=\"" ++ c.href ++ "\">" ++ c.label ++ "</a>"

/-- Modelled from the spec: rendering of one at-a-glance bullet. -/
def renderGlanceItem (s : String) : String :=
  "<li>" ++ s ++ "</li>"

/-- Modelled from the spec: rendering of one stats entry. -/
def renderStat (s : Stat) : String :=
  "<div class=\"stat\"><strong>" ++ s.value ++ "</strong><span>" ++ s.label ++ "</span></div>"

/-- Modelled from the spec: rendering of one title/body content block
(section 3, ContentBlock). -/
def renderTitleBody (t : TitleBody) : String :=
  "<article><h3>" ++ t.title ++ "</h3><p>" ++ t.body ++ "</p></article>"

/-- Modelled from the spec: rendering of one workflow step. -/
def renderStep (w : WorkflowStep) : String :=
  "<article><span>" ++ w.step ++ "</span><h3>" ++ w.title ++ "</h3><p>" ++ w.body ++ "</p></article>"

/-- Modelled from the spec: the rendered fragments of the navigation links,
one fragment per declared link, in declared order. -/
def navFragments (l : List NavLink) : List String :=
  l.map renderNavLink

/-- Modelled from the spec: the rendered fragments of the feature (or any
title/body) list, one fragment per entry, in declared order. -/
def featureFragments (l : List TitleBody) : List String :=
  l.map renderTitleBody

/-- Modelled from the spec: the rendered fragments of the workflow steps,
one fragment per entry, in declared order. -/
def workflowFragments (l : List WorkflowStep) : List String :=
  l.map renderStep

/-- Modelled from the spec: everything the template emits before the hero
title (document head, navigation in declared order, hero badge). -/
def bodyPre (nav_links : List NavLink) (hero : Hero) : String :=
  "<!DOCTYPE html><html><head><title>MCP Runtime Platform</title></head><body><nav>" ++
  String.join (navFragments nav_links) ++
  "</nav><header><span class=\"badge\">" ++ hero.badge ++ "</span><h1>"

/-- Modelled from the spec: everything the template emits after the hero
title (hero subtitle and CTAs, then the remaining sections in source order:
at-a-glance, stats, overview, features, workflow, architecture, callout). -/
def bodyPost (hero : Hero) (at_a_glance : List String) (stats : List Stat)
    (overview : Overview) (features : List TitleBody) (workflow : List WorkflowStep)
    (architecture : List TitleBody) (callout : Callout) : String :=
  "</h1><p>" ++ hero.subtitle ++ "</p>" ++
  renderCTA hero.primary ++ renderCTA hero.secondary ++
  "</header><section id=\"glance\"><ul>" ++
  String.join (at_a_glance.map renderGlanceItem) ++
  "</ul></section><section id=\"stats\">" ++
  String.join (stats.map renderStat) ++
  "</section><section id=\"overview\"><h2>" ++ overview.title ++ "</h2><p>" ++
  overview.intro ++ "</p>" ++
  String.join (featureFragments overview.items) ++
  "</section><section id=\"features\">" ++
  String.join (featureFragments features) ++
  "</section><section id=\"workflow\">" ++
  String.join (workflowFragments workflow) ++
  "</section><section id=\"architecture\">" ++
  String.join (featureFragments architecture) ++
  "</section><aside><h2>" ++ callout.title ++ "</h2><p>" ++ callout.body ++ "</p>" ++
  renderCTA callout.cta ++ "</aside></body></html>"

/-- Modelled from the spec: the full HTML document produced by rendering
`templates/index.html` with the given content (spec sections 4.1 and 8.1:
the body contains the hero title; 8.5: lists rendered in declared order). -/
def indexBody (nav_links : List NavLink) (hero : Hero) (at_a_glance : List String)
    (stats : List Stat) (overview : Overview) (features : List TitleBody)
    (workflow : List WorkflowStep) (architecture : List TitleBody)
    (callout : Callout) : String :=
  bodyPre nav_links hero ++
  (hero.title ++ bodyPost hero at_a_glance stats overview features workflow architecture callout)

/-- Flask's `render_template("index.html", ...)` with the nine keyword
arguments passed at `app.py` lines 146-157.  Jinja compiles the template
lazily at render time: a malformed template raises (modelled as `.error`),
otherwise the rendered document is produced. -/
def render_template (t : Template) (nav_links : List NavLink) (hero : Hero)
    (at_a_glance : List String) (stats : List Stat) (overview : Overview)
    (features : List TitleBody) (workflow : List WorkflowStep)
    (architecture : List TitleBody) (callout : Callout) : Except String String :=
  if t.malformed then
    .error "TemplateSyntaxError"
  else
    .ok (indexBody nav_links hero at_a_glance stats overview features workflow architecture callout)

/-- Werkzeug's default 404 Not Found response, returned by Flask both for
unmatched routes and from `send_from_directory` when the file is absent. -/
def notFound : Response :=
  { status := 404,
    headers := [("Content-Type", "text/html; charset=utf-8")],
    body := "<!doctype html><html lang=en><title>404 Not Found</title><h1>Not Found</h1></html>" }

/-- Flask's default 500 Internal Server Error response, produced by the
framework when a handler raises an unhandled exception. -/
def internalServerError : Response :=
  { status := 500,
    headers := [("Content-Type", "text/html; charset=utf-8")],
    body := "<!doctype html><html lang=en><title>500 Internal Server Error</title><h1>Internal Server Error</h1></html>" }

/-- Flask's `redirect(location)`: default status code 302 with a `Location`
header set to the target and a small boilerplate HTML body. -/
def redirect (location : String) : Response :=
  { status := 302,
    headers := [("Content-Type", "text/html; charset=utf-8"), ("Location", location)],
    body :=
      "<!doctype html><html lang=en><title>Redirecting...</title><h1>Redirecting...</h1>" ++
      "<p>You should be redirected automatically to the target URL: <a href=\"" ++
      location ++ "\">" ++ location ++ "</a>. If not, click the link." }

/-- Flask's `send_from_directory(directory, filename)`: 200 with the file's
bytes when the file exists in the directory, otherwise it aborts with 404. -/
def send_from_directory (fs : FS) (directory : String) (filename : String) : Response :=
  match fs directory filename with
  | some contents =>
    { status := 200,
      headers := [("Content-Type", "text/html; charset=utf-8")],
      body := contents }
  | none => notFound

/-- The value of the first response header with the given name, if any. -/
def headerValue (r : Response) (name : String) : Option String :=
  (r.headers.find? (fun p => p.1 = name)).map Prod.snd

/-- The `home` handler (`app.py` lines 144-157, route `/`): renders
`index.html` with the nine content structures.  A rendering failure is an
unhandled exception, which Flask turns into a 500 response. -/
def home (s : ServerState) : Response :=
  match render_template s.template s.nav_links s.hero s.at_a_glance s.stats
      s.overview s.features s.workflow s.architecture s.callout with
  | .ok b =>
    { status := 200,
      headers := [("Content-Type", "text/html; charset=utf-8")],
      body := b }
  | .error _ => internalServerError

/-- The `docs_redirect` handler (`app.py` lines 160-162, route `/docs`):
`redirect("/docs/")`.  It reads no state at all. -/
def docs_redirect : Response :=
  redirect "/docs/"

/-- The `docs_index` handler (`app.py` lines 165-167, route `/docs/`):
`send_from_directory("docs", "index.html")` with both arguments constant. -/
def docs_index (s : ServerState) : Response :=
  send_from_directory s.fs "docs" "index.html"

/-- Flask's URL-map dispatch for the three registered rules `/`, `/docs` and
`/docs/` (each an exact match); any other path falls through to the default
404 handler. -/
def dispatch (s : ServerState) (req : Request) : Response :=
  if req.path = "/" then home s
  else if req.path = "/docs" then docs_redirect
  else if req.path = "/docs/" then docs_index s
  else notFound

/-- One request-response cycle with explicit state: the handlers of `app.py`
contain no assignment to any module global, so the state they return is the
state they received. -/
def handle (s : ServerState) (req : Request) : Response × ServerState :=
  (dispatch s req, s)

/-- Sequential processing of a list of requests, threading the server state
through each request-response cycle. -/
def runRequests (s : ServerState) : List Request → List Response × ServerState
  | [] => ([], s)
  | r :: rs =>
    let first := handle s r
    let rest := runRequests first.2 rs
    (first.1 :: rest.1, rest.2)

/-- The server state at process start: the module-level constants of
`app.py`, the (not yet compiled) template, and the filesystem. -/
def initState (t : Template) (fs : FS) : ServerState :=
  { nav_links := NAV_LINKS, hero := HERO, at_a_glance := AT_A_GLANCE,
    stats := STATS, overview := OVERVIEW, features := FEATURES,
    workflow := WORKFLOW, architecture := ARCHITECTURE, callout := CALLOUT,
    template := t, fs := fs }

/-- Process startup (importing `app.py` and calling `app.run`): the module
top level only constructs the constant content structures and registers the
three routes; it never opens or compiles `templates/index.html`, so startup
cannot fail because of the template.  A fatal startup error would be an
`.error`; the embedding shows none exists. -/
def startup (t : Template) (fs : FS) : Except String ServerState :=
  .ok (initState t fs)

/-- Equality of everything the `home` handler reads: the nine content
structures and the template (the filesystem is deliberately excluded). -/
def ContentUnchanged (s s' : ServerState) : Prop :=
  s.nav_links = s'.nav_links ∧ s.hero = s'.hero ∧ s.at_a_glance = s'.at_a_glance ∧
  s.stats = s'.stats ∧ s.overview = s'.overview ∧ s.features = s'.features ∧
  s.workflow = s'.workflow ∧ s.architecture = s'.architecture ∧
  s.callout = s'.callout ∧ s.template = s'.template

/-- `body` contains `pat` as a contiguous substring. -/
def ContainsStr (body pat : String) : Prop :=
  ∃ p q : String, body = p ++ (pat ++ q)

/-- A handler cycle returns the state it received: no handler in `app.py`
assigns to any module global. -/
theorem handle_preserves_state (s : ServerState) (r : Request) : (handle s r).2 = s :=
  rfl

/-- Threading state through any request sequence leaves it unchanged. -/
theorem runRequests_state (s : ServerState) (l : List Request) :
    (runRequests s l).2 = s := by
  induction l with
  | nil => rfl
  | cons r rs ih => simp [runRequests, handle, ih]

/-- Each response in a request sequence is the stateless response of the
initial state: order cannot matter. -/
theorem runRequests_responses (s : ServerState) (l : List Request) :
    (runRequests s l).1 = l.map (fun r => dispatch s r) := by
  induction l with
  | nil => rfl
  | cons r rs ih => simp [runRequests, handle, ih]

/-- An all-files-absent filesystem, used as a concrete test fixture. -/
def fsNone : FS := fun _ _ => none

/-- A filesystem holding exactly `docs/index.html`, as a test fixture. -/
def fsDocs : FS := fun d f =>
  if d = "docs" then (if f = "index.html" then some "<h1>MCP Runtime docs</h1>" else none)
  else none

/-- A well-formed template fixture. -/
def tOK : Template := { malformed := false }

/-- A malformed template fixture. -/
def tMal : Template := { malformed := true }

/-- Initial state with a well-formed template over the empty filesystem. -/
def s0 : ServerState := initState tOK fsNone

/-- Initial state with a well-formed template and `docs/index.html` present. -/
def sDocs : ServerState := initState tOK fsDocs

/-- Initial state with a malformed template. -/
def sMal : ServerState := initState tMal fsNone

/-- A plain `GET /` request fixture. -/
def reqHome : Request := { path := "/", headers := [], query := "" }

/-- A `GET /` request fixture with different headers and query string. -/
def reqHome2 : Request := { path := "/", headers := [("X-Trace", "1")], query := "a=1" }

/-- A plain `GET /docs` request fixture. -/
def reqDocs : Request := { path := "/docs", headers := [], query := "" }

/-- A plain `GET /docs/` request fixture. -/
def reqDocsIdx : Request := { path := "/docs/", headers := [], query := "" }

/-- A `GET /docs/` request fixture with different headers and query string. -/
def reqDocsIdx2 : Request := { path := "/docs/", headers := [("Cookie", "sid=9")], query := "v=2" }

/-- A request fixture for a path with no registered route. -/
def reqNope : Request := { path := "/nope", headers := [], query := "" }

/-- C1: every `GET /docs` request is handled by `docs_redirect`, which
returns status 302 with a `Location` header equal to `/docs/`. -/
theorem docs_redirect_is_302_to_docs_slash (s : ServerState) (req : Request)
    (h : req.path = "/docs") :
    dispatch s req = docs_redirect ∧
    (dispatch s req).status = 302 ∧
    headerValue (dispatch s req) "Location" = some "/docs/" := by
  have hd : dispatch s req = docs_redirect := by
    unfold dispatch
    rw [h, if_neg (by decide), if_pos rfl]
  refine ⟨hd, ?_, ?_⟩ <;> rw [hd] <;> rfl

/-- Witness for C1 at the concrete request `GET /docs`. -/
theorem docs_redirect_is_302_to_docs_slash_witness :
    dispatch s0 reqDocs = docs_redirect ∧
    (dispatch s0 reqDocs).status = 302 ∧
    headerValue (dispatch s0 reqDocs) "Location" = some "/docs/" :=
  docs_redirect_is_302_to_docs_slash s0 reqDocs rfl

/-- C2: `docs_index` returns 200 with the byte contents of
`docs/index.html` when the file exists, 404 when it is absent, and no third
outcome exists. -/
theorem docs_index_file_or_404 (s : ServerState) :
    (∀ c, s.fs "docs" "index.html" = some c →
      (docs_index s).status = 200 ∧ (docs_index s).body = c) ∧
    (s.fs "docs" "index.html" = none → (docs_index s).status = 404) ∧
    ((docs_index s).status = 200 ∨ (docs_index s).status = 404) := by
  refine ⟨?_, ?_, ?_⟩
  · intro c hc
    simp [docs_index, send_from_directory, hc]
  · intro hc
    simp [docs_index, send_from_directory, hc, notFound]
  · cases hc : s.fs "docs" "index.html" with
    | none =>
      right
      simp [docs_index, send_from_directory, hc, notFound]
    | some c =>
      left
      simp [docs_index, send_from_directory, hc]

/-- Witness for C2: with `docs/index.html` present the response is 200 and
byte-identical to the file; with it absent the response is 404. -/
theorem docs_index_file_or_404_witness :
    ((docs_index sDocs).status = 200 ∧ (docs_index sDocs).body = "<h1>MCP Runtime docs</h1>") ∧
    (docs_index s0).status = 404 :=
  ⟨(docs_index_file_or_404 sDocs).1 "<h1>MCP Runtime docs</h1>" rfl,
   (docs_index_file_or_404 s0).2.1 rfl⟩

/-- C3: for every `GET /` request, with the template well-formed and the
hero content as configured, `home` returns 200 and the body contains the
hero title string. -/
theorem home_200_contains_hero_title (s : ServerState)
    (hok : s.template.malformed = false) (hh : s.hero = HERO) :
    (∀ req : Request, req.path = "/" → dispatch s req = home s) ∧
    (home s).status = 200 ∧
    ContainsStr (home s).body HERO.title ∧
    HERO.title = "Launch MCP servers with a platform, not a patchwork." := by
  have hr : render_template s.template s.nav_links s.hero s.at_a_glance s.stats
      s.overview s.features s.workflow s.architecture s.callout =
      .ok (indexBody s.nav_links s.hero s.at_a_glance s.stats s.overview
        s.features s.workflow s.architecture s.callout) := by
    simp [render_template, hok]
  have hb : home s =
      { status := 200,
        headers := [("Content-Type", "text/html; charset=utf-8")],
        body := indexBody s.nav_links s.hero s.at_a_glance s.stats s.overview
          s.features s.workflow s.architecture s.callout } := by
    rw [home, hr]
  refine ⟨?_, ?_, ?_, rfl⟩
  · intro req hp
    unfold dispatch
    rw [hp, if_pos rfl]
  · rw [hb]
  · rw [hb]
    show ∃ p q : String, indexBody s.nav_links s.hero s.at_a_glance s.stats
      s.overview s.features s.workflow s.architecture s.callout =
      p ++ (HERO.title ++ q)
    refine ⟨bodyPre s.nav_links s.hero,
      bodyPost s.hero s.at_a_glance s.stats s.overview s.features s.workflow
        s.architecture s.callout, ?_⟩
    rw [indexBody, hh]

/-- Witness for C3 at the initial state with a well-formed template. -/
theorem home_200_contains_hero_title_witness :
    (home s0).status = 200 ∧ ContainsStr (home s0).body HERO.title :=
  ⟨(home_200_contains_hero_title s0 rfl rfl).2.1,
   (home_200_contains_hero_title s0 rfl rfl).2.2.1⟩

/-- C4: the content structures are constant after process start and no
request handler mutates shared state; in particular handling `GET /docs`
leaves the state untouched. -/
theorem content_constant_no_mutation (t : Template) (fs : FS) (s : ServerState)
    (reqs : List Request) :
    (runRequests s reqs).2 = s ∧
    (runRequests (initState t fs) reqs).2 = initState t fs ∧
    ((runRequests (initState t fs) reqs).2.nav_links = NAV_LINKS ∧
     (runRequests (initState t fs) reqs).2.hero = HERO ∧
     (runRequests (initState t fs) reqs).2.at_a_glance = AT_A_GLANCE ∧
     (runRequests (initState t fs) reqs).2.stats = STATS ∧
     (runRequests (initState t fs) reqs).2.overview = OVERVIEW ∧
     (runRequests (initState t fs) reqs).2.features = FEATURES ∧
     (runRequests (initState t fs) reqs).2.workflow = WORKFLOW ∧
     (runRequests (initState t fs) reqs).2.architecture = ARCHITECTURE ∧
     (runRequests (initState t fs) reqs).2.callout = CALLOUT) ∧
    (handle s reqDocs).2 = s := by
  refine ⟨runRequests_state s reqs, runRequests_state _ reqs, ?_, rfl⟩
  rw [runRequests_state _ reqs]
  exact ⟨rfl, rfl, rfl, rfl, rfl, rfl, rfl, rfl, rfl⟩

/-- C5: the `home` handler reads only the content structures and the
template, so two `GET /` requests against unchanged content yield identical
responses (and in particular identical bodies). -/
theorem home_deterministic (s s' : ServerState) (req req' : Request)
    (hp : req.path = "/") (hp' : req'.path = "/") (h : ContentUnchanged s s') :
    dispatch s req = home s ∧
    dispatch s' req' = home s' ∧
    home s = home s' ∧
    (dispatch s req).body = (dispatch s' req').body := by
  obtain ⟨h1, h2, h3, h4, h5, h6, h7, h8, h9, h10⟩ := h
  have e : dispatch s req = home s := by
    unfold dispatch; rw [hp, if_pos rfl]
  have e' : dispatch s' req' = home s' := by
    unfold dispatch; rw [hp', if_pos rfl]
  have hh : home s = home s' := by
    unfold home
    rw [h1, h2, h3, h4, h5, h6, h7, h8, h9, h10]
  exact ⟨e, e', hh, by rw [e, e', hh]⟩

/-- Witness for C5: two `GET /` requests with different headers and query,
against two states sharing content but differing in filesystem. -/
theorem home_deterministic_witness :
    (dispatch s0 reqHome).body = (dispatch sDocs reqHome2).body :=
  (home_deterministic s0 sDocs reqHome reqHome2 rfl rfl
    ⟨rfl, rfl, rfl, rfl, rfl, rfl, rfl, rfl, rfl, rfl⟩).2.2.2

/-- C6: for any permutation of a request sequence, each request's response
is the stateless response of the initial state, so every request yields the
same response in any order and the final states agree. -/
theorem request_order_independent (s : ServerState) (l l' : List Request)
    (h : l.Perm l') :
    (runRequests s l).1 = l.map (fun r => dispatch s r) ∧
    (runRequests s l').1 = l'.map (fun r => dispatch s r) ∧
    ((runRequests s l).1).Perm ((runRequests s l').1) ∧
    (runRequests s l).2 = (runRequests s l').2 := by
  refine ⟨runRequests_responses s l, runRequests_responses s l', ?_, ?_⟩
  · rw [runRequests_responses s l, runRequests_responses s l']
    exact h.map _
  · rw [runRequests_state s l, runRequests_state s l']

/-- Witness for C6: the sequence `/docs`, `/`, `/docs/` against its
reversal. -/
theorem request_order_independent_witness :
    ((runRequests s0 [reqDocs, reqHome, reqDocsIdx]).1).Perm
      ((runRequests s0 [reqDocsIdx, reqHome, reqDocs]).1) :=
  (request_order_independent s0 [reqDocs, reqHome, reqDocsIdx]
    [reqDocsIdx, reqHome, reqDocs] (by decide)).2.2.1

/-- C7 counterexample: with a malformed template, startup succeeds (the
module top level never touches the template), and the failure surfaces
while handling `GET /` as a 500 response — contradicting the claim that a
malformed template is a fatal startup error never surfaced at request
time. -/
theorem template_failure_startup_cex :
    startup tMal fsNone = .ok sMal ∧
    (home sMal).status = 500 ∧
    (dispatch sMal reqHome) = internalServerError ∧
    (dispatch sMal reqHome).status ≠ 200 := by
  refine ⟨rfl, rfl, rfl, by decide⟩

/-- C7 amended: a malformed template does not prevent startup; the
rendering failure surfaces during the handling of `GET /` as an HTTP 500
internal server error response. -/
theorem template_failure_request_time (t : Template) (fs : FS)
    (h : t.malformed = true) :
    startup t fs = .ok (initState t fs) ∧
    (home (initState t fs)).status = 500 ∧
    dispatch (initState t fs) reqHome = internalServerError := by
  have hr : home (initState t fs) = internalServerError := by
    unfold home render_template initState
    rw [h]
    rfl
  refine ⟨rfl, by rw [hr]; rfl, ?_⟩
  unfold dispatch
  rw [show reqHome.path = "/" from rfl, if_pos rfl, hr]

/-- Witness for the amended C7 at the malformed-template fixture. -/
theorem template_failure_request_time_witness :
    (home (initState tMal fsNone)).status = 500 :=
  (template_failure_request_time tMal fsNone rfl).2.1

/-- C8: the rendered fragments of the navigation, feature and workflow
lists are index-for-index the images of the source entries, so adjacent
source entries stay in the same relative order; permuting a source list
permutes only the fragment order and never changes the fragment count. -/
theorem fragments_order_preserved (nav nav' : List NavLink)
    (fe fe' : List TitleBody) (wf wf' : List WorkflowStep) :
    ((navFragments nav).length = nav.length ∧
     (∀ i, (navFragments nav).get? i = (nav.get? i).map renderNavLink) ∧
     (nav.Perm nav' →
       (navFragments nav).Perm (navFragments nav') ∧
       (navFragments nav').length = nav.length)) ∧
    ((featureFragments fe).length = fe.length ∧
     (∀ i, (featureFragments fe).get? i = (fe.get? i).map renderTitleBody) ∧
     (fe.Perm fe' →
       (featureFragments fe).Perm (featureFragments fe') ∧
       (featureFragments fe').length = fe.length)) ∧
    ((workflowFragments wf).length = wf.length ∧
     (∀ i, (workflowFragments wf).get? i = (wf.get? i).map renderStep) ∧
     (wf.Perm wf' →
       (workflowFragments wf).Perm (workflowFragments wf') ∧
       (workflowFragments wf').length = wf.length)) := by
  refine ⟨⟨?_, ?_, ?_⟩, ⟨?_, ?_, ?_⟩, ⟨?_, ?_, ?_⟩⟩
  · exact List.length_map _ _
  · intro i
    exact List.get?_map _ _ _
  · intro h
    refine ⟨h.map _, ?_⟩
    simp only [navFragments, List.length_map]
    exact h.length_eq.symm
  · exact List.length_map _ _
  · intro i
    exact List.get?_map _ _ _
  · intro h
    refine ⟨h.map _, ?_⟩
    simp only [featureFragments, List.length_map]
    exact h.length_eq.symm
  · exact List.length_map _ _
  · intro i
    exact List.get?_map _ _ _
  · intro h
    refine ⟨h.map _, ?_⟩
    simp only [workflowFragments, List.length_map]
    exact h.length_eq.symm

/-- Witness for C8 at the declared content lists and a concrete
reordering. -/
theorem fragments_order_preserved_witness :
    (navFragments NAV_LINKS).length = NAV_LINKS.length ∧
    (navFragments NAV_LINKS).Perm (navFragments NAV_LINKS.reverse) ∧
    (navFragments NAV_LINKS.reverse).length = NAV_LINKS.length :=
  ⟨(fragments_order_preserved NAV_LINKS NAV_LINKS.reverse FEATURES FEATURES
      WORKFLOW WORKFLOW).1.1,
   ((fragments_order_preserved NAV_LINKS NAV_LINKS.reverse FEATURES FEATURES
      WORKFLOW WORKFLOW).1.2.2 (by decide)).1,
   ((fragments_order_preserved NAV_LINKS NAV_LINKS.reverse FEATURES FEATURES
      WORKFLOW WORKFLOW).1.2.2 (by decide)).2⟩

/-- C9: any path other than the three registered routes dispatches to the
default 404 handler; no other path yields a 200 or a 302. -/
theorem unregistered_path_404 (s : ServerState) (req : Request)
    (h1 : req.path ≠ "/") (h2 : req.path ≠ "/docs") (h3 : req.path ≠ "/docs/") :
    dispatch s req = notFound ∧
    (dispatch s req).status = 404 ∧
    (dispatch s req).status ≠ 200 ∧
    (dispatch s req).status ≠ 302 := by
  have hd : dispatch s req = notFound := by
    unfold dispatch
    rw [if_neg h1, if_neg h2, if_neg h3]
  rw [hd]
  exact ⟨rfl, rfl, by decide, by decide⟩

/-- Witness for C9 at the unregistered path `/nope`. -/
theorem unregistered_path_404_witness :
    dispatch s0 reqNope = notFound ∧ (dispatch s0 reqNope).status = 404 :=
  ⟨(unregistered_path_404 s0 reqNope (by decide) (by decide) (by decide)).1,
   (unregistered_path_404 s0 reqNope (by decide) (by decide) (by decide)).2.1⟩

/-- C10: `docs_index` reads the fixed constants `docs` and `index.html`
and ignores the request entirely, so any two `GET /docs/` requests get
identical responses regardless of headers or query string. -/
theorem docs_index_request_independent (s : ServerState) (r r' : Request)
    (h : r.path = "/docs/") (h' : r'.path = "/docs/") :
    dispatch s r = docs_index s ∧
    dispatch s r = dispatch s r' := by
  have e : dispatch s r = docs_index s := by
    unfold dispatch
    rw [h, if_neg (by decide), if_neg (by decide), if_pos rfl]
  have e' : dispatch s r' = docs_index s := by
    unfold dispatch
    rw [h', if_neg (by decide), if_neg (by decide), if_pos rfl]
  exact ⟨e, by rw [e, e']⟩

/-- Witness for C10: two `/docs/` requests differing in headers and query
string. -/
theorem docs_index_request_independent_witness :
    dispatch sDocs reqDocsIdx = dispatch sDocs reqDocsIdx2 :=
  (docs_index_request_independent sDocs reqDocsIdx reqDocsIdx2 rfl rfl).2
